import Mathlib

/-!
Verification development for the `etl_meteorologico` repository
(`src/etl_weather.py`, `src/config.py`).

The Python pipeline is shallowly embedded:
* a pandas `DataFrame` row becomes a `WeatherRecord`; a pandas `NaN` in a
  nullable column becomes `none`;
* float columns are modelled by `ℚ` (the pipeline only compares and copies
  them, so rational arithmetic captures the behaviour exactly);
* timestamps are kept abstract as strings; `datetime.fromtimestamp(..).strftime`
  is modelled by an injective stand-in `fmtDateTime`;
* the PostgreSQL store becomes an explicit `Store` value with the three
  tables `ubicaciones`, `mediciones_climaticas`, `condiciones_climaticas`
  as lists of rows plus serial-id counters; `INSERT .. ON CONFLICT .. DO
  NOTHING RETURNING` becomes a lookup followed by a conditional append;
* a database statement that raises is modelled by tagging a record of the
  batch with the `FailPoint` at which its processing raises; `rollback`
  restores the store as it was when the record started (the code commits
  once per record, so the transaction holds exactly one record of work).
-/

/-- Provenance tag; the code writes the literal strings CSV, JSON, API. -/
inductive SourceType where
  | CSV
  | JSON
  | API
deriving DecidableEq

/-- One row of the combined DataFrame, with the exact column names built in
`extraer` (`etl_weather.py` lines 82-117 and 155-190).  Columns that the
pipeline null-checks or fills (`dropna`, `fillna`) are `Option`-valued;
a `none` is a pandas `NaN`. -/
@[ext]
structure WeatherRecord where
  city_name : Option String
  country_code : String
  country_name : String
  state_province : String
  latitude : ℚ
  longitude : ℚ
  altitude_meters : ℚ
  timezone : String
  population : Int
  measurement_datetime : String
  temperature_celsius : Option ℚ
  feels_like_celsius : ℚ
  temp_min_celsius : ℚ
  temp_max_celsius : ℚ
  humidity_percent : Option ℚ
  pressure_hpa : ℚ
  sea_level_pressure_hpa : ℚ
  ground_level_pressure_hpa : ℚ
  wind_speed_mps : Option ℚ
  wind_gust_mps : ℚ
  wind_direction_degrees : ℚ
  cloudiness_percent : ℚ
  visibility_meters : ℚ
  precipitation_mm : Option ℚ
  snow_mm : Option ℚ
  uv_index : Option ℚ
  condition_main : String
  condition_description : String
  condition_icon_code : String
  sunrise_time : String
  sunset_time : String
  moon_phase : ℚ
  air_quality_index : Option ℚ
  weather_alert : Option Bool
  source_type : SourceType

/-! ## `config.py` — the `DATA_VALIDATION` table (lines 76-97).
`etl_weather.py` does not import `config`, so these bounds are what the
configuration declares, independently of what `transformar` enforces. -/

def DATA_VALIDATION_temperature_min : ℚ := -50
def DATA_VALIDATION_temperature_max : ℚ := 60
def DATA_VALIDATION_humidity_min : ℚ := 0
def DATA_VALIDATION_humidity_max : ℚ := 100
def DATA_VALIDATION_pressure_min : ℚ := 900
def DATA_VALIDATION_pressure_max : ℚ := 1100
def DATA_VALIDATION_wind_speed_min : ℚ := 0
def DATA_VALIDATION_wind_speed_max : ℚ := 200
def DATA_VALIDATION_visibility_min : ℚ := 0
def DATA_VALIDATION_visibility_max : ℚ := 50000

/-! ## Extraction: the JSON source (`extraer`, lines 74-127).

A JSON document is a fixed tree of nested paths; an absent path is a `none`
field here.  In Python, reading an absent path raises `KeyError`, and the
`try` block wraps the whole loop over the documents of the file. -/

/-- One document of `weather_data.json`; each field is one of the fixed
nested paths read at lines 83-116, `none` when the path is absent. -/
structure JsonItem where
  location_city : Option String
  location_country : Option String
  location_lat : Option ℚ
  location_lon : Option ℚ
  location_altitude : Option ℚ
  location_timezone : Option String
  location_population : Option Int
  timestamp : Option String
  temp_current : Option ℚ
  temp_feels_like : Option ℚ
  temp_min : Option ℚ
  temp_max : Option ℚ
  atmospheric_humidity : Option ℚ
  atmospheric_pressure : Option ℚ
  atmospheric_sea_level : Option ℚ
  atmospheric_visibility : Option ℚ
  wind_speed : Option ℚ
  wind_gust : Option ℚ
  wind_direction : Option ℚ
  clouds : Option ℚ
  precipitation_rain : Option ℚ
  precipitation_snow : Option ℚ
  uv_index : Option ℚ
  conditions_main : Option String
  conditions_description : Option String
  conditions_icon : Option String
  astronomy_sunrise : Option String
  astronomy_sunset : Option String
  astronomy_moon_phase : Option ℚ
  air_quality : Option ℚ
  alert : Option Bool

/-- The record dictionary built for one JSON document (lines 82-117): every
path is required, `country_name` is the literal `México`, `state_province`
the empty string, and `ground_level_pressure_hpa` is read from
`atmospheric.pressure` (line 100).  `none` when any required path is absent
(the `KeyError` raised by the Python lookup; which path is missing is not
tracked, only that the record fails to map). -/
def mapJsonItem (item : JsonItem) : Option WeatherRecord :=
  if item.location_city.isSome && item.location_country.isSome &&
     item.location_lat.isSome && item.location_lon.isSome &&
     item.location_altitude.isSome && item.location_timezone.isSome &&
     item.location_population.isSome && item.timestamp.isSome &&
     item.temp_current.isSome && item.temp_feels_like.isSome &&
     item.temp_min.isSome && item.temp_max.isSome &&
     item.atmospheric_humidity.isSome && item.atmospheric_pressure.isSome &&
     item.atmospheric_sea_level.isSome && item.atmospheric_visibility.isSome &&
     item.wind_speed.isSome && item.wind_gust.isSome &&
     item.wind_direction.isSome && item.clouds.isSome &&
     item.precipitation_rain.isSome && item.precipitation_snow.isSome &&
     item.uv_index.isSome && item.conditions_main.isSome &&
     item.conditions_description.isSome && item.conditions_icon.isSome &&
     item.astronomy_sunrise.isSome && item.astronomy_sunset.isSome &&
     item.astronomy_moon_phase.isSome && item.air_quality.isSome &&
     item.alert.isSome then
    some
      { city_name := item.location_city
        country_code := item.location_country.getD ""
        country_name := "México"
        state_province := ""
        latitude := item.location_lat.getD 0
        longitude := item.location_lon.getD 0
        altitude_meters := item.location_altitude.getD 0
        timezone := item.location_timezone.getD ""
        population := item.location_population.getD 0
        measurement_datetime := item.timestamp.getD ""
        temperature_celsius := item.temp_current
        feels_like_celsius := item.temp_feels_like.getD 0
        temp_min_celsius := item.temp_min.getD 0
        temp_max_celsius := item.temp_max.getD 0
        humidity_percent := item.atmospheric_humidity
        pressure_hpa := item.atmospheric_pressure.getD 0
        sea_level_pressure_hpa := item.atmospheric_sea_level.getD 0
        ground_level_pressure_hpa := item.atmospheric_pressure.getD 0
        wind_speed_mps := item.wind_speed
        wind_gust_mps := item.wind_gust.getD 0
        wind_direction_degrees := item.wind_direction.getD 0
        cloudiness_percent := item.clouds.getD 0
        visibility_meters := item.atmospheric_visibility.getD 0
        precipitation_mm := item.precipitation_rain
        snow_mm := item.precipitation_snow
        uv_index := item.uv_index
        condition_main := item.conditions_main.getD ""
        condition_description := item.conditions_description.getD ""
        condition_icon_code := item.conditions_icon.getD ""
        sunrise_time := item.astronomy_sunrise.getD ""
        sunset_time := item.astronomy_sunset.getD ""
        moon_phase := item.astronomy_moon_phase.getD 0
        air_quality_index := item.air_quality
        weather_alert := item.alert
        source_type := SourceType.JSON }
  else none

/-- The loop `for item in json_data: ... records.append(record)`: documents
are mapped in order and the first failure aborts the whole loop. -/
def mapJsonLoop : List JsonItem → Option (List WeatherRecord)
  | [] => some []
  | d :: ds =>
    match mapJsonItem d with
    | none => none
    | some r =>
      match mapJsonLoop ds with
      | none => none
      | some rs => some (r :: rs)

/-- The JSON branch of `extraer` (lines 74-127): the `try` wraps the whole
loop, and the `except` sets `self.df_json = pd.DataFrame()`, so one raising
document yields the empty record set for the entire JSON source. -/
def extraerJson (docs : List JsonItem) : List WeatherRecord :=
  match mapJsonLoop docs with
  | some rs => rs
  | none => []

/-! ## Extraction: the API source (`extraer`, lines 129-203). -/

/-- A decoded HTTP-200 response body of the OpenWeatherMap endpoint.
Fields read with plain indexing (`data[..]`) are required and modelled as
plain fields; fields read with `.get(..)` are `Option`-valued. -/
structure ApiResponse where
  name : String
  sys_country : String
  coord_lat : ℚ
  coord_lon : ℚ
  timezone : Option String
  dt : Int
  main_temp : ℚ
  main_feels_like : ℚ
  main_temp_min : ℚ
  main_temp_max : ℚ
  main_humidity : ℚ
  main_pressure : ℚ
  main_sea_level : Option ℚ
  main_grnd_level : Option ℚ
  wind_speed : ℚ
  wind_gust : Option ℚ
  wind_deg : Option ℚ
  clouds_all : ℚ
  visibility : Option ℚ
  rain_1h : Option ℚ
  snow_1h : Option ℚ
  weather0_main : String
  weather0_description : String
  weather0_icon : String
  sys_sunrise : Int
  sys_sunset : Int

/-- Stand-in for `datetime.fromtimestamp(t).strftime(..)`: the embedding
only needs the result to be a string determined by the epoch value. -/
def fmtDateTime (t : Int) : String := toString t

/-- The record dictionary built for one successful API response
(lines 155-190), with the `.get` defaults of the source: gust defaults to
wind speed, sea-level and ground-level pressure to surface pressure,
visibility to 10000, rain and snow to 0; `country_name` is the literal
`México` and `state_province` the empty string. -/
def mapApiResponse (data : ApiResponse) : WeatherRecord :=
  { city_name := some data.name
    country_code := data.sys_country
    country_name := "México"
    state_province := ""
    latitude := data.coord_lat
    longitude := data.coord_lon
    altitude_meters := 0
    timezone := data.timezone.getD ""
    population := 0
    measurement_datetime := fmtDateTime data.dt
    temperature_celsius := some data.main_temp
    feels_like_celsius := data.main_feels_like
    temp_min_celsius := data.main_temp_min
    temp_max_celsius := data.main_temp_max
    humidity_percent := some data.main_humidity
    pressure_hpa := data.main_pressure
    sea_level_pressure_hpa := data.main_sea_level.getD data.main_pressure
    ground_level_pressure_hpa := data.main_grnd_level.getD data.main_pressure
    wind_speed_mps := some data.wind_speed
    wind_gust_mps := data.wind_gust.getD data.wind_speed
    wind_direction_degrees := data.wind_deg.getD 0
    cloudiness_percent := data.clouds_all
    visibility_meters := data.visibility.getD 10000
    precipitation_mm := some (data.rain_1h.getD 0)
    snow_mm := some (data.snow_1h.getD 0)
    uv_index := some 0
    condition_main := data.weather0_main
    condition_description := data.weather0_description
    condition_icon_code := data.weather0_icon
    sunrise_time := fmtDateTime data.sys_sunrise
    sunset_time := fmtDateTime data.sys_sunset
    moon_phase := 0
    air_quality_index := some 1
    weather_alert := some false
    source_type := SourceType.API }

/-! ## Extraction: the CSV source (`extraer`, lines 60-71).

CSV columns pass through unchanged (`pd.read_csv` plus the added
`source_type` column), so mapping a CSV row whose columns carry the
canonical names is the identity on the fields plus the provenance tag. -/

/-- A CSV row with canonical column names, once extracted: the fields as
they stand, tagged `CSV` (line 64). -/
def csvRecord (r : WeatherRecord) : WeatherRecord :=
  { r with source_type := SourceType.CSV }

/-- The JSON document sitting at the fixed nested paths that carries the
same observation as the canonical record `r` (the paths of lines 83-116
filled with the corresponding fields of `r`). -/
def docOfObs (r : WeatherRecord) : JsonItem :=
  { location_city := r.city_name
    location_country := some r.country_code
    location_lat := some r.latitude
    location_lon := some r.longitude
    location_altitude := some r.altitude_meters
    location_timezone := some r.timezone
    location_population := some r.population
    timestamp := some r.measurement_datetime
    temp_current := r.temperature_celsius
    temp_feels_like := some r.feels_like_celsius
    temp_min := some r.temp_min_celsius
    temp_max := some r.temp_max_celsius
    atmospheric_humidity := r.humidity_percent
    atmospheric_pressure := some r.pressure_hpa
    atmospheric_sea_level := some r.sea_level_pressure_hpa
    atmospheric_visibility := some r.visibility_meters
    wind_speed := r.wind_speed_mps
    wind_gust := some r.wind_gust_mps
    wind_direction := some r.wind_direction_degrees
    clouds := some r.cloudiness_percent
    precipitation_rain := r.precipitation_mm
    precipitation_snow := r.snow_mm
    uv_index := r.uv_index
    conditions_main := some r.condition_main
    conditions_description := some r.condition_description
    conditions_icon := some r.condition_icon_code
    astronomy_sunrise := some r.sunrise_time
    astronomy_sunset := some r.sunset_time
    astronomy_moon_phase := some r.moon_phase
    air_quality := r.air_quality_index
    alert := r.weather_alert }

/-- Two canonical records agree on every field except `source_type`. -/
def sameExceptSource (a b : WeatherRecord) : Prop :=
  { a with source_type := SourceType.CSV } = { b with source_type := SourceType.CSV }


/-! ## Transformation (`transformar`, lines 220-409).

Pandas column operations are modelled element-wise.  The string methods
`.str.strip()`, `.str.title()`, `.str.upper()` are the Python `str`
methods, modelled here on the ASCII fragment: `strip` removes the six
Python whitespace characters from both ends, `title` upper-cases the first
letter of every run of letters and lower-cases the rest, `upper` maps every
lower-case letter to upper case. -/

/-- The six characters removed by Python `str.strip()`. -/
def pyIsSpace (c : Char) : Bool :=
  decide (c.toNat = 32 ∨ c.toNat = 9 ∨ c.toNat = 10 ∨ c.toNat = 13 ∨
    c.toNat = 11 ∨ c.toNat = 12)

/-- Cased characters of the ASCII fragment (the word units of `str.title()`). -/
def pyIsAlpha (c : Char) : Bool :=
  decide ((65 ≤ c.toNat ∧ c.toNat ≤ 90) ∨ (97 ≤ c.toNat ∧ c.toNat ≤ 122))

/-- ASCII upper-casing of one character. -/
def pyToUpper (c : Char) : Char :=
  if 97 ≤ c.toNat ∧ c.toNat ≤ 122 then Char.ofNat (c.toNat - 32) else c

/-- ASCII lower-casing of one character. -/
def pyToLower (c : Char) : Char :=
  if 65 ≤ c.toNat ∧ c.toNat ≤ 90 then Char.ofNat (c.toNat + 32) else c

/-- Remove trailing Python whitespace. -/
def dropTrailingWs : List Char → List Char
  | [] => []
  | c :: cs =>
    match dropTrailingWs cs with
    | [] => if pyIsSpace c then [] else [c]
    | r => c :: r

/-- `str.strip()` on the character list. -/
def stripChars (l : List Char) : List Char :=
  dropTrailingWs (l.dropWhile pyIsSpace)

/-- `str.title()` on the character list; the flag records whether the
previous character was cased (Python `previous_is_cased`). -/
def titleChars : Bool → List Char → List Char
  | _, [] => []
  | prevCased, c :: cs =>
    if pyIsAlpha c then
      (if prevCased then pyToLower c else pyToUpper c) :: titleChars true cs
    else
      c :: titleChars false cs

/-- `str.strip()`. -/
def pyStrip (s : String) : String := String.mk (stripChars s.data)

/-- `str.title()`. -/
def pyTitle (s : String) : String := String.mk (titleChars false s.data)

/-- `str.upper()`. -/
def pyUpper (s : String) : String := String.mk (s.data.map pyToUpper)

/-- TRANSFORMACIÓN 5 on one city name: `.str.strip().str.title()` (line 309). -/
def normalizeCity (s : String) : String := pyTitle (pyStrip s)

/-- The English to Spanish dictionary `traduccion_condiciones`
(lines 317-385). -/
def traduccion_condiciones : List (String × String) :=
  [("Clear", "Despejado"),
   ("Clouds", "Nublado"),
   ("Rain", "Lluvia"),
   ("Drizzle", "Llovizna"),
   ("Thunderstorm", "Tormenta"),
   ("Snow", "Nieve"),
   ("Mist", "Neblina"),
   ("Smoke", "Humo"),
   ("Haze", "Bruma"),
   ("Dust", "Polvo"),
   ("Fog", "Niebla"),
   ("Sand", "Arena"),
   ("Ash", "Ceniza"),
   ("Squall", "Turbonada"),
   ("Tornado", "Tornado"),
   ("clear sky", "cielo despejado"),
   ("few clouds", "pocas nubes"),
   ("scattered clouds", "nubes dispersas"),
   ("broken clouds", "nubes fragmentadas"),
   ("overcast clouds", "muy nublado"),
   ("light rain", "lluvia ligera"),
   ("moderate rain", "lluvia moderada"),
   ("heavy rain", "lluvia intensa"),
   ("very heavy rain", "lluvia muy intensa"),
   ("extreme rain", "lluvia extrema"),
   ("freezing rain", "lluvia helada"),
   ("light intensity drizzle", "llovizna ligera"),
   ("drizzle", "llovizna"),
   ("heavy intensity drizzle", "llovizna intensa"),
   ("light intensity shower rain", "chubasco ligero"),
   ("shower rain", "chubasco"),
   ("heavy intensity shower rain", "chubasco intenso"),
   ("ragged shower rain", "chubasco irregular"),
   ("thunderstorm with light rain", "tormenta con lluvia ligera"),
   ("thunderstorm with rain", "tormenta con lluvia"),
   ("thunderstorm with heavy rain", "tormenta con lluvia intensa"),
   ("light thunderstorm", "tormenta ligera"),
   ("thunderstorm", "tormenta"),
   ("heavy thunderstorm", "tormenta intensa"),
   ("ragged thunderstorm", "tormenta irregular"),
   ("thunderstorm with light drizzle", "tormenta con llovizna ligera"),
   ("thunderstorm with drizzle", "tormenta con llovizna"),
   ("thunderstorm with heavy drizzle", "tormenta con llovizna intensa"),
   ("light snow", "nieve ligera"),
   ("snow", "nieve"),
   ("heavy snow", "nieve intensa"),
   ("sleet", "aguanieve"),
   ("light shower sleet", "aguanieve ligera"),
   ("shower sleet", "aguanieve"),
   ("light rain and snow", "lluvia y nieve ligera"),
   ("rain and snow", "lluvia y nieve"),
   ("light shower snow", "chubasco de nieve ligero"),
   ("shower snow", "chubasco de nieve"),
   ("heavy shower snow", "chubasco de nieve intenso"),
   ("mist", "neblina"),
   ("smoke", "humo"),
   ("haze", "bruma"),
   ("sand/dust whirls", "remolinos de arena/polvo"),
   ("fog", "niebla"),
   ("sand", "arena"),
   ("dust", "polvo"),
   ("volcanic ash", "ceniza volcánica"),
   ("squalls", "turbonadas"),
   ("tornado", "tornado")]

/-- `Series.replace(traduccion_condiciones)` on one cell: an exact match is
replaced, anything else passes through unchanged. -/
def traducirTexto (s : String) : String :=
  match traduccion_condiciones.find? (fun p => p.1 == s) with
  | some p => p.2
  | none => s

/-- TRANSFORMACIÓN 2 (line 263): `dropna(subset=[temperature_celsius,
city_name])` keeps a row iff both critical columns are non-null. -/
def notNullCriticos (r : WeatherRecord) : Bool :=
  r.temperature_celsius.isSome && r.city_name.isSome

/-- A pandas `series >= bound` comparison on one cell: `NaN` compares false. -/
def qGeB : Option ℚ → ℚ → Bool
  | some x, b => decide (b ≤ x)
  | none, _ => false

/-- A pandas `series <= bound` comparison on one cell: `NaN` compares false. -/
def qLeB : Option ℚ → ℚ → Bool
  | some x, b => decide (x ≤ b)
  | none, _ => false

/-- Temperature filter (lines 275-278): keep `-50 <= t` and `t <= 60`. -/
def temperaturaValida (r : WeatherRecord) : Bool :=
  qGeB r.temperature_celsius (-50) && qLeB r.temperature_celsius 60

/-- Humidity filter (lines 285-288): keep `0 <= h` and `h <= 100`. -/
def humedadValida (r : WeatherRecord) : Bool :=
  qGeB r.humidity_percent 0 && qLeB r.humidity_percent 100

/-- Wind-speed filter (line 292): keep `0 <= w`. -/
def vientoValido (r : WeatherRecord) : Bool :=
  qGeB r.wind_speed_mps 0

/-- TRANSFORMACIÓN 4 (lines 300-304): `fillna` on the five optional columns. -/
def rellenarOpcionales (r : WeatherRecord) : WeatherRecord :=
  { r with
    precipitation_mm := some (r.precipitation_mm.getD 0)
    snow_mm := some (r.snow_mm.getD 0)
    uv_index := some (r.uv_index.getD 0)
    weather_alert := some (r.weather_alert.getD false)
    air_quality_index := some (r.air_quality_index.getD 1) }

/-- TRANSFORMACIÓN 5 (lines 309-310): normalize city name and country code. -/
def estandarizarNombres (r : WeatherRecord) : WeatherRecord :=
  { r with
    city_name := r.city_name.map normalizeCity
    country_code := pyUpper r.country_code }

/-- TRANSFORMACIÓN 6 (lines 388-389): translate the two condition columns. -/
def traducirCondiciones (r : WeatherRecord) : WeatherRecord :=
  { r with
    condition_main := traducirTexto r.condition_main
    condition_description := traducirTexto r.condition_description }

/-- The full per-record cleaning map applied to the surviving rows. -/
def limpiarRegistro (r : WeatherRecord) : WeatherRecord :=
  traducirCondiciones (estandarizarNombres (rellenarOpcionales r))

/-- `transformar` (lines 220-409) on the three extracted record sets.
`pd.concat` of the non-empty ones is list concatenation; when all three
are empty the function prints and returns `None` (lines 242-244).
TRANSFORMACIÓN 1 (`pd.to_datetime`, lines 252-255) re-encodes the
timestamp column in place and is modelled as the identity on the abstract
timestamp strings. -/
def transformar (df_csv df_json df_api : List WeatherRecord) :
    Option (List WeatherRecord) :=
  if df_csv.isEmpty && df_json.isEmpty && df_api.isEmpty then
    none
  else
    some (((((df_csv ++ df_json ++ df_api).filter notNullCriticos).filter
      temperaturaValida).filter humedadValida).filter vientoValido
      |>.map rellenarOpcionales |>.map estandarizarNombres
      |>.map traducirCondiciones)

/-! ## Loading (`cargar`, lines 415-554).

The relational store and the per-record insert sequence.  A `FailPoint`
names the statement of one record at which the database raises; `none`
means the record processes without a database error.  The code commits
after every record, so `conn.rollback()` in the `except` branch restores
exactly the store as it was when the failing record started. -/

/-- The statement of a record at which the database raises. -/
inductive FailPoint where
  | insert_ubicacion
  | select_ubicacion
  | insert_medicion
  | insert_condicion
  | commit
deriving DecidableEq

/-- One row of `ubicaciones` (INSERT at lines 445-459). -/
structure UbicacionRow where
  id_ubicacion : Nat
  nombre_ciudad : Option String
  codigo_pais : String
  nombre_pais : String
  estado_provincia : String
  latitud : ℚ
  longitud : ℚ
  altitud_metros : ℚ
  zona_horaria : String
  poblacion : Int

/-- One row of `mediciones_climaticas` (INSERT at lines 475-503). -/
structure MedicionRow where
  id_medicion : Nat
  id_ubicacion : Nat
  fecha_hora_medicion : String
  temperatura_celsius : Option ℚ
  sensacion_termica_celsius : ℚ
  temperatura_minima_celsius : ℚ
  temperatura_maxima_celsius : ℚ
  humedad_porcentaje : Option ℚ
  presion_hpa : ℚ
  presion_nivel_mar_hpa : ℚ
  presion_nivel_suelo_hpa : ℚ
  velocidad_viento_mps : Option ℚ
  rafaga_viento_mps : ℚ
  direccion_viento_grados : ℚ
  nubosidad_porcentaje : ℚ
  visibilidad_metros : ℚ
  precipitacion_mm : Option ℚ
  nieve_mm : Option ℚ
  indice_uv : Option ℚ
  tipo_fuente : SourceType
  puntuacion_calidad_datos : Nat

/-- One row of `condiciones_climaticas` (INSERT at lines 510-524). -/
structure CondicionRow where
  id_medicion : Nat
  condicion_principal : String
  descripcion_condicion : String
  codigo_icono_condicion : String
  hora_amanecer : String
  hora_atardecer : String
  fase_lunar : ℚ
  indice_calidad_aire : Option ℚ
  alerta_meteorologica : Option Bool

/-- The three tables plus the serial-id sequences. -/
@[ext]
structure Store where
  ubicaciones : List UbicacionRow
  mediciones_climaticas : List MedicionRow
  condiciones_climaticas : List CondicionRow
  next_id_ubicacion : Nat
  next_id_medicion : Nat

/-- A store with empty tables. -/
def emptyStore : Store := ⟨[], [], [], 1, 1⟩

/-- The three counters of `cargar` (lines 436-438). -/
@[ext]
structure Counters where
  registros_insertados : Nat
  registros_duplicados : Nat
  errores : Nat
deriving DecidableEq, Repr

/-- All three counters start at 0. -/
def counters0 : Counters := ⟨0, 0, 0⟩

/-- `registros_insertados += 1` (line 526). -/
def incIns (c : Counters) : Counters :=
  { c with registros_insertados := c.registros_insertados + 1 }

/-- `registros_duplicados += 1` (line 530). -/
def incDup (c : Counters) : Counters :=
  { c with registros_duplicados := c.registros_duplicados + 1 }

/-- `errores += 1` (line 537). -/
def incErr (c : Counters) : Counters :=
  { c with errores := c.errores + 1 }

/-- The natural key of `ubicaciones`:
`(nombre_ciudad, codigo_pais, latitud, longitud)` (line 451). -/
def ubicacionKey (row : UbicacionRow) : Option String × String × ℚ × ℚ :=
  (row.nombre_ciudad, row.codigo_pais, row.latitud, row.longitud)

/-- The location natural key carried by a record. -/
def locKeyOf (r : WeatherRecord) : Option String × String × ℚ × ℚ :=
  (r.city_name, r.country_code, r.latitude, r.longitude)

/-- Surrogate id of the location row with the given natural key, if any
(the follow-up SELECT at lines 466-472). -/
def findUbicacion (st : Store) (k : Option String × String × ℚ × ℚ) :
    Option Nat :=
  (st.ubicaciones.find? (fun row => decide (ubicacionKey row = k))).map
    (fun row => row.id_ubicacion)

/-- The natural key of `mediciones_climaticas`:
`(id_ubicacion, fecha_hora_medicion, tipo_fuente)` (line 488). -/
def medicionKey (row : MedicionRow) : Nat × String × SourceType :=
  (row.id_ubicacion, row.fecha_hora_medicion, row.tipo_fuente)

/-- Surrogate id of the measurement row with the given natural key, if any. -/
def findMedicion (st : Store) (k : Nat × String × SourceType) : Option Nat :=
  (st.mediciones_climaticas.find? (fun row => decide (medicionKey row = k))).map
    (fun row => row.id_medicion)

/-- The `ubicaciones` row inserted for a record (VALUES at lines 454-459;
the `row.get` defaults never apply because every column exists on the
combined DataFrame built by `extraer`). -/
def ubicacionRowOf (idU : Nat) (r : WeatherRecord) : UbicacionRow :=
  { id_ubicacion := idU
    nombre_ciudad := r.city_name
    codigo_pais := r.country_code
    nombre_pais := r.country_name
    estado_provincia := r.state_province
    latitud := r.latitude
    longitud := r.longitude
    altitud_metros := r.altitude_meters
    zona_horaria := r.timezone
    poblacion := r.population }

/-- The `mediciones_climaticas` row inserted for a record (VALUES at
lines 491-503; `puntuacion_calidad_datos` is the literal 3). -/
def medicionRowOf (idM idU : Nat) (r : WeatherRecord) : MedicionRow :=
  { id_medicion := idM
    id_ubicacion := idU
    fecha_hora_medicion := r.measurement_datetime
    temperatura_celsius := r.temperature_celsius
    sensacion_termica_celsius := r.feels_like_celsius
    temperatura_minima_celsius := r.temp_min_celsius
    temperatura_maxima_celsius := r.temp_max_celsius
    humedad_porcentaje := r.humidity_percent
    presion_hpa := r.pressure_hpa
    presion_nivel_mar_hpa := r.sea_level_pressure_hpa
    presion_nivel_suelo_hpa := r.ground_level_pressure_hpa
    velocidad_viento_mps := r.wind_speed_mps
    rafaga_viento_mps := r.wind_gust_mps
    direccion_viento_grados := r.wind_direction_degrees
    nubosidad_porcentaje := r.cloudiness_percent
    visibilidad_metros := r.visibility_meters
    precipitacion_mm := r.precipitation_mm
    nieve_mm := r.snow_mm
    indice_uv := r.uv_index
    tipo_fuente := r.source_type
    puntuacion_calidad_datos := 3 }

/-- The `condiciones_climaticas` row inserted for a record (VALUES at
lines 518-524). -/
def condicionRowOf (idM : Nat) (r : WeatherRecord) : CondicionRow :=
  { id_medicion := idM
    condicion_principal := r.condition_main
    descripcion_condicion := r.condition_description
    codigo_icono_condicion := r.condition_icon_code
    hora_amanecer := r.sunrise_time
    hora_atardecer := r.sunset_time
    fase_lunar := r.moon_phase
    indice_calidad_aire := r.air_quality_index
    alerta_meteorologica := r.weather_alert }

/-- PASO 1 (lines 445-472): `INSERT INTO ubicaciones .. ON CONFLICT ..
DO NOTHING RETURNING id_ubicacion`.  On conflict the insert returns no row
and the id comes from the follow-up SELECT; the Boolean records whether the
conflict branch was taken. -/
def insertUbicacion (st : Store) (r : WeatherRecord) : Nat × Store × Bool :=
  match findUbicacion st (locKeyOf r) with
  | some idU => (idU, st, true)
  | none =>
    (st.next_id_ubicacion,
     { st with
       ubicaciones := st.ubicaciones ++ [ubicacionRowOf st.next_id_ubicacion r]
       next_id_ubicacion := st.next_id_ubicacion + 1 },
     false)

/-- PASO 2 insert without the conflict check: append a fresh measurement
row under the next serial id. -/
def insertMedicion (st : Store) (idU : Nat) (r : WeatherRecord) : Store :=
  { st with
    mediciones_climaticas :=
      st.mediciones_climaticas ++ [medicionRowOf st.next_id_medicion idU r]
    next_id_medicion := st.next_id_medicion + 1 }

/-- PASO 3 (lines 510-524): `INSERT INTO condiciones_climaticas ..
ON CONFLICT (id_medicion) DO NOTHING`. -/
def insertCondicion (st : Store) (idM : Nat) (r : WeatherRecord) : Store :=
  if st.condiciones_climaticas.any (fun row => decide (row.id_medicion = idM)) then
    st
  else
    { st with
      condiciones_climaticas :=
        st.condiciones_climaticas ++ [condicionRowOf idM r] }

/-- The loop body after PASO 1: `st0` is the store at the start of the
record (restored by `conn.rollback()` on any raise), `st1` the store after
the location upsert.  Mirrors lines 474-538: on a measurement conflict the
record is a duplicate and PASO 3 is skipped; otherwise the condition row is
inserted and `registros_insertados` is incremented at line 526 BEFORE
`conn.commit()` at line 532, so a raising commit leaves the already
incremented counter in place and counts an error on top of it. -/
def stepTrasUbicacion (st0 st1 : Store) (idU : Nat) (c : Counters)
    (r : WeatherRecord) (fl : Option FailPoint) : Store × Counters :=
  if fl = some FailPoint.insert_medicion then (st0, incErr c)
  else
    match findMedicion st1 (idU, r.measurement_datetime, r.source_type) with
    | some _ =>
      if fl = some FailPoint.commit then (st0, incErr (incDup c))
      else (st1, incDup c)
    | none =>
      if fl = some FailPoint.insert_condicion then (st0, incErr c)
      else
        if fl = some FailPoint.commit then (st0, incErr (incIns c))
        else
          (insertCondicion (insertMedicion st1 idU r) st1.next_id_medicion r,
           incIns c)

/-- One iteration of `for index, row in self.df_combined.iterrows()`
(lines 442-538) on the record together with its failure annotation. -/
def stepRecord (st : Store) (c : Counters)
    (x : WeatherRecord × Option FailPoint) : Store × Counters :=
  if x.2 = some FailPoint.insert_ubicacion then (st, incErr c)
  else
    if (insertUbicacion st x.1).2.2 ∧ x.2 = some FailPoint.select_ubicacion then
      (st, incErr c)
    else
      stepTrasUbicacion st (insertUbicacion st x.1).2.1 (insertUbicacion st x.1).1
        c x.1 x.2

/-- The whole loading loop over the batch. -/
def cargarList : Store → Counters →
    List (WeatherRecord × Option FailPoint) → Store × Counters
  | st, c, [] => (st, c)
  | st, c, x :: rest =>
    cargarList (stepRecord st c x).1 (stepRecord st c x).2 rest

/-- `cargar` (lines 415-554).  The Boolean of the result records whether a
database connection was opened: with `df_combined` equal to `None` or empty
the method returns at line 428 before `psycopg2.connect` (line 432). -/
def cargar (df_combined : Option (List (WeatherRecord × Option FailPoint)))
    (st : Store) : Store × Counters × Bool :=
  match df_combined with
  | none => (st, counters0, false)
  | some batch =>
    if batch.isEmpty then (st, counters0, false)
    else
      ((cargarList st counters0 batch).1, (cargarList st counters0 batch).2, true)

/-- Annotate a batch with no database failures. -/
def sinFallos (batch : List WeatherRecord) :
    List (WeatherRecord × Option FailPoint) :=
  batch.map (fun r => (r, none))

/-- Whether the execution of one record against the store actually reaches
the given statement (a statement that is never executed cannot raise:
the SELECT only runs on a location conflict, PASO 3 only when the
measurement insert returned a fresh row). -/
def reachesB (st : Store) (r : WeatherRecord) : FailPoint → Bool
  | FailPoint.insert_ubicacion => true
  | FailPoint.select_ubicacion => (findUbicacion st (locKeyOf r)).isSome
  | FailPoint.insert_medicion => true
  | FailPoint.insert_condicion =>
    (findMedicion (insertUbicacion st r).2.1
      ((insertUbicacion st r).1, r.measurement_datetime, r.source_type)).isNone
  | FailPoint.commit => true

/-! ## Concrete data used by the witnesses and counterexamples. -/

/-- A well-formed canonical record: every value in range, every optional
column filled, the city name already trimmed and title-cased, the country
code already upper-case, the condition texts not in the translation table
(so the cleaning maps leave the record unchanged). -/
def baseRecord : WeatherRecord :=
  { city_name := some "Merida"
    country_code := "MX"
    country_name := "México"
    state_province := ""
    latitude := 20
    longitude := -89
    altitude_meters := 10
    timezone := "America"
    population := 100
    measurement_datetime := "2024-01-01 00:00:00"
    temperature_celsius := some 25
    feels_like_celsius := 26
    temp_min_celsius := 20
    temp_max_celsius := 30
    humidity_percent := some 50
    pressure_hpa := 1013
    sea_level_pressure_hpa := 1013
    ground_level_pressure_hpa := 1013
    wind_speed_mps := some 3
    wind_gust_mps := 5
    wind_direction_degrees := 90
    cloudiness_percent := 20
    visibility_meters := 10000
    precipitation_mm := some 0
    snow_mm := some 0
    uv_index := some 5
    condition_main := "Despejado"
    condition_description := "cielo despejado"
    condition_icon_code := "01d"
    sunrise_time := "06:00:00"
    sunset_time := "18:00:00"
    moon_phase := 0
    air_quality_index := some 1
    weather_alert := some false
    source_type := SourceType.CSV }

example : limpiarRegistro baseRecord = baseRecord := by rfl

example : transformar [baseRecord] [] [] = some [baseRecord] := by rfl

/-! ## Facts about the ASCII string operations (towards claim C8). -/

theorem toNat_ofNat_valid {n : Nat} (h : n < 55296) : (Char.ofNat n).toNat = n := by
  unfold Char.ofNat
  rw [dif_pos (Or.inl h : n.isValidChar)]
  rfl

theorem pyToUpper_pyToUpper (c : Char) : pyToUpper (pyToUpper c) = pyToUpper c := by
  unfold pyToUpper
  by_cases h : 97 ≤ c.toNat ∧ c.toNat ≤ 122
  · rw [if_pos h]
    have ht : (Char.ofNat (c.toNat - 32)).toNat = c.toNat - 32 :=
      toNat_ofNat_valid (by omega)
    rw [if_neg (by rw [ht]; omega)]
  · rw [if_neg h, if_neg h]

theorem pyToLower_pyToLower (c : Char) : pyToLower (pyToLower c) = pyToLower c := by
  unfold pyToLower
  by_cases h : 65 ≤ c.toNat ∧ c.toNat ≤ 90
  · rw [if_pos h]
    have ht : (Char.ofNat (c.toNat + 32)).toNat = c.toNat + 32 :=
      toNat_ofNat_valid (by omega)
    rw [if_neg (by rw [ht]; omega)]
  · rw [if_neg h, if_neg h]

theorem pyIsAlpha_pyToUpper (c : Char) : pyIsAlpha (pyToUpper c) = pyIsAlpha c := by
  unfold pyToUpper pyIsAlpha
  by_cases h : 97 ≤ c.toNat ∧ c.toNat ≤ 122
  · rw [if_pos h]
    have ht : (Char.ofNat (c.toNat - 32)).toNat = c.toNat - 32 :=
      toNat_ofNat_valid (by omega)
    rw [decide_eq_true (by rw [ht]; omega), decide_eq_true (by omega)]
  · rw [if_neg h]

theorem pyIsAlpha_pyToLower (c : Char) : pyIsAlpha (pyToLower c) = pyIsAlpha c := by
  unfold pyToLower pyIsAlpha
  by_cases h : 65 ≤ c.toNat ∧ c.toNat ≤ 90
  · rw [if_pos h]
    have ht : (Char.ofNat (c.toNat + 32)).toNat = c.toNat + 32 :=
      toNat_ofNat_valid (by omega)
    rw [decide_eq_true (by rw [ht]; omega), decide_eq_true (by omega)]
  · rw [if_neg h]

theorem pyIsSpace_pyToUpper (c : Char) : pyIsSpace (pyToUpper c) = pyIsSpace c := by
  unfold pyToUpper pyIsSpace
  by_cases h : 97 ≤ c.toNat ∧ c.toNat ≤ 122
  · rw [if_pos h]
    have ht : (Char.ofNat (c.toNat - 32)).toNat = c.toNat - 32 :=
      toNat_ofNat_valid (by omega)
    rw [decide_eq_false (by rw [ht]; omega), decide_eq_false (by omega)]
  · rw [if_neg h]

theorem pyIsSpace_pyToLower (c : Char) : pyIsSpace (pyToLower c) = pyIsSpace c := by
  unfold pyToLower pyIsSpace
  by_cases h : 65 ≤ c.toNat ∧ c.toNat ≤ 90
  · rw [if_pos h]
    have ht : (Char.ofNat (c.toNat + 32)).toNat = c.toNat + 32 :=
      toNat_ofNat_valid (by omega)
    rw [decide_eq_false (by rw [ht]; omega), decide_eq_false (by omega)]
  · rw [if_neg h]

theorem titleChars_map_pyIsSpace (l : List Char) (p : Bool) :
    (titleChars p l).map pyIsSpace = l.map pyIsSpace := by
  induction l generalizing p with
  | nil => rfl
  | cons c cs ih =>
    by_cases hc : pyIsAlpha c = true
    · cases p with
      | false => simp [titleChars, hc, pyIsSpace_pyToUpper, ih]
      | true => simp [titleChars, hc, pyIsSpace_pyToLower, ih]
    · simp [titleChars, hc, ih]

theorem titleChars_idem (l : List Char) (p : Bool) :
    titleChars p (titleChars p l) = titleChars p l := by
  induction l generalizing p with
  | nil => rfl
  | cons c cs ih =>
    by_cases hc : pyIsAlpha c = true
    · cases p with
      | false =>
        simp [titleChars, hc, pyIsAlpha_pyToUpper, pyToUpper_pyToUpper, ih]
      | true =>
        simp [titleChars, hc, pyIsAlpha_pyToLower, pyToLower_pyToLower, ih]
    · simp [titleChars, hc, ih]

theorem dropWhile_pyIsSpace_eq_self (l : List Char)
    (h : ∀ c, l.head? = some c → pyIsSpace c = false) :
    l.dropWhile pyIsSpace = l := by
  cases l with
  | nil => rfl
  | cons c cs => simp [List.dropWhile_cons, h c rfl]

theorem head?_dropWhile_pyIsSpace (l : List Char) (c : Char)
    (h : (l.dropWhile pyIsSpace).head? = some c) : pyIsSpace c = false := by
  induction l with
  | nil => cases h
  | cons a as ih =>
    by_cases ha : pyIsSpace a = true
    · rw [List.dropWhile_cons, if_pos ha] at h
      exact ih h
    · rw [List.dropWhile_cons, if_neg ha] at h
      cases h
      exact Bool.not_eq_true _ ▸ (by simpa using ha)

theorem dropTrailingWs_cons (c : Char) (cs : List Char) :
    dropTrailingWs (c :: cs) =
      match dropTrailingWs cs with
      | [] => if pyIsSpace c then [] else [c]
      | r => c :: r := rfl

theorem dropTrailingWs_cons_cases (c : Char) (cs : List Char) :
    dropTrailingWs (c :: cs) = [] ∨
    dropTrailingWs (c :: cs) = c :: dropTrailingWs cs := by
  rw [dropTrailingWs_cons]
  cases h : dropTrailingWs cs with
  | nil =>
    by_cases hsp : pyIsSpace c = true
    · left; simp [hsp]
    · right; simp [hsp]
  | cons d ds => right; rfl

theorem head?_dropTrailingWs (l : List Char) :
    (dropTrailingWs l).head? = none ∨ (dropTrailingWs l).head? = l.head? := by
  cases l with
  | nil => exact Or.inl rfl
  | cons c cs =>
    rcases dropTrailingWs_cons_cases c cs with h | h
    · exact Or.inl (by rw [h]; rfl)
    · exact Or.inr (by rw [h]; rfl)

theorem getLast?_dropTrailingWs (l : List Char) (c : Char)
    (h : (dropTrailingWs l).getLast? = some c) : pyIsSpace c = false := by
  induction l with
  | nil => cases h
  | cons a as ih =>
    revert h
    unfold dropTrailingWs
    cases hd : dropTrailingWs as with
    | nil =>
      by_cases hsp : pyIsSpace a = true
      · intro h; rw [if_pos hsp] at h; cases h
      · intro h
        rw [if_neg hsp] at h
        simp at h
        subst h
        simpa using hsp
    | cons d ds =>
      intro h
      rw [List.getLast?_cons_cons] at h
      exact ih (hd ▸ h)

theorem dropTrailingWs_eq_self (l : List Char)
    (h : ∀ c, l.getLast? = some c → pyIsSpace c = false) :
    dropTrailingWs l = l := by
  induction l with
  | nil => rfl
  | cons a as ih =>
    cases as with
    | nil =>
      have hns := h a rfl
      show (if pyIsSpace a = true then [] else [a]) = [a]
      simp [hns]
    | cons b bs =>
      have hih : dropTrailingWs (b :: bs) = b :: bs := by
        refine ih ?_
        intro c hc
        exact h c (by rw [List.getLast?_cons_cons]; exact hc)
      rw [dropTrailingWs_cons, hih]

theorem getLast?_eq_getLast?_of_map_eq (f : Char → Bool) (l₁ l₂ : List Char)
    (h : l₁.map f = l₂.map f) (c : Char) (hc : l₁.getLast? = some c) :
    ∃ d, l₂.getLast? = some d ∧ f d = f c := by
  have h1 : (l₁.map f).getLast? = some (f c) := by
    rw [List.getLast?_map, hc]; rfl
  rw [h, List.getLast?_map] at h1
  cases hd : l₂.getLast? with
  | none => rw [hd] at h1; cases h1
  | some d =>
    rw [hd] at h1
    exact ⟨d, rfl, by simpa using h1⟩

theorem head?_eq_head?_of_map_eq (f : Char → Bool) (l₁ l₂ : List Char)
    (h : l₁.map f = l₂.map f) (c : Char) (hc : l₂.head? = some c) :
    ∃ d, l₁.head? = some d ∧ f d = f c := by
  have h1 : (l₂.map f).head? = some (f c) := by
    rw [List.head?_map, hc]; rfl
  rw [← h, List.head?_map] at h1
  cases hd : l₁.head? with
  | none => rw [hd] at h1; cases h1
  | some d =>
    rw [hd] at h1
    exact ⟨d, rfl, by simpa using h1⟩

theorem stripChars_titleChars_stripChars (l : List Char) :
    stripChars (titleChars false (stripChars l)) =
      titleChars false (stripChars l) := by
  have hmap := titleChars_map_pyIsSpace (stripChars l) false
  have hhead : ∀ c, (titleChars false (stripChars l)).head? = some c →
      pyIsSpace c = false := by
    intro c hc
    obtain ⟨d, hd, hfd⟩ :=
      head?_eq_head?_of_map_eq pyIsSpace (stripChars l)
        (titleChars false (stripChars l)) hmap.symm c hc
    rw [← hfd]
    rcases head?_dropTrailingWs (l.dropWhile pyIsSpace) with h0 | h0
    · rw [show stripChars l = dropTrailingWs (l.dropWhile pyIsSpace) from rfl,
        h0] at hd
      cases hd
    · rw [show stripChars l = dropTrailingWs (l.dropWhile pyIsSpace) from rfl,
        h0] at hd
      exact head?_dropWhile_pyIsSpace l d hd
  have hlast : ∀ c, (titleChars false (stripChars l)).getLast? = some c →
      pyIsSpace c = false := by
    intro c hc
    obtain ⟨d, hd, hfd⟩ :=
      getLast?_eq_getLast?_of_map_eq pyIsSpace
        (titleChars false (stripChars l)) (stripChars l) hmap c hc
    rw [← hfd]
    exact getLast?_dropTrailingWs (l.dropWhile pyIsSpace) d hd
  show dropTrailingWs ((titleChars false (stripChars l)).dropWhile pyIsSpace) = _
  rw [dropWhile_pyIsSpace_eq_self _ hhead]
  exact dropTrailingWs_eq_self _ hlast

/-- C8, list level: `strip` then `title` is idempotent. -/
theorem normalizeChars_idem (l : List Char) :
    titleChars false (stripChars (titleChars false (stripChars l))) =
      titleChars false (stripChars l) := by
  rw [stripChars_titleChars_stripChars, titleChars_idem]

/-- C8: city-name normalization (trim, then title case) is idempotent:
for every string `s`, `normalizeCity (normalizeCity s) = normalizeCity s`. -/
theorem normalizeCity_idempotent (s : String) :
    normalizeCity (normalizeCity s) = normalizeCity s :=
  congrArg String.mk (normalizeChars_idem s.data)

/-! ## Helper lemmas for the transform stage. -/

/-- Every record of the transformed output survived the three range filters. -/
theorem transformar_mem_valid (df_csv df_json df_api out : List WeatherRecord)
    (hout : transformar df_csv df_json df_api = some out)
    (r : WeatherRecord) (hr : r ∈ out) :
    temperaturaValida r = true ∧ humedadValida r = true ∧
      vientoValido r = true := by
  unfold transformar at hout
  by_cases hemp : (df_csv.isEmpty && df_json.isEmpty && df_api.isEmpty) = true
  · rw [if_pos hemp] at hout; cases hout
  · rw [if_neg hemp] at hout
    cases hout
    simp only [List.mem_map] at hr
    obtain ⟨r2, hr2, hre⟩ := hr
    obtain ⟨r1, hr1, hr1e⟩ := hr2
    obtain ⟨r0, hr0, hr0e⟩ := hr1
    rw [List.mem_filter] at hr0
    obtain ⟨hr0m, hv⟩ := hr0
    rw [List.mem_filter] at hr0m
    obtain ⟨hr0m, hh⟩ := hr0m
    rw [List.mem_filter] at hr0m
    obtain ⟨hr0m, ht⟩ := hr0m
    subst hre hr1e hr0e
    refine ⟨?_, ?_, ?_⟩
    · exact ht
    · exact hh
    · exact hv

/-- C5: a record of the combined batch whose temperature lies outside
`[-50, 60]`, or whose humidity lies outside `[0, 100]`, or whose wind speed
is negative, is absent from the validated output of `transformar`. -/
theorem transformar_drops_out_of_range
    (df_csv df_json df_api out : List WeatherRecord)
    (hout : transformar df_csv df_json df_api = some out)
    (r : WeatherRecord)
    (hviol : (∃ t, r.temperature_celsius = some t ∧ (t < -50 ∨ 60 < t)) ∨
             (∃ h, r.humidity_percent = some h ∧ (h < 0 ∨ 100 < h)) ∨
             (∃ w, r.wind_speed_mps = some w ∧ w < 0)) :
    r ∉ out := by
  intro hmem
  obtain ⟨ht, hh, hv⟩ :=
    transformar_mem_valid df_csv df_json df_api out hout r hmem
  rcases hviol with ⟨t, hts, hrange⟩ | ⟨h, hhs, hrange⟩ | ⟨w, hws, hrange⟩
  · unfold temperaturaValida qGeB qLeB at ht
    rw [hts] at ht
    simp at ht
    rcases hrange with h1 | h1 <;> [exact absurd ht.1 (by exact not_le.mpr h1);
      exact absurd ht.2 (by exact not_le.mpr h1)]
  · unfold humedadValida qGeB qLeB at hh
    rw [hhs] at hh
    simp at hh
    rcases hrange with h1 | h1 <;> [exact absurd hh.1 (by exact not_le.mpr h1);
      exact absurd hh.2 (by exact not_le.mpr h1)]
  · unfold vientoValido qGeB at hv
    rw [hws] at hv
    simp at hv
    exact absurd hv (by exact not_le.mpr hrange)

/-- Witness for C5: the spec scenario — a 95 °C reading is dropped by the
transform (`transformar` of the single-record JSON batch yields the empty
output and the hot record is not in it). -/
theorem transformar_drops_out_of_range_witness :
    transformar [] [{ baseRecord with temperature_celsius := some 95 }] [] =
      some [] ∧
    { baseRecord with temperature_celsius := some 95 } ∉
      ([] : List WeatherRecord) :=
  ⟨rfl,
   transformar_drops_out_of_range []
     [{ baseRecord with temperature_celsius := some 95 }] [] [] rfl
     { baseRecord with temperature_celsius := some 95 }
     (Or.inl ⟨95, rfl, Or.inr (by norm_num)⟩)⟩

/-- A record that is valid for every check `transformar` actually performs
but whose pressure and visibility lie far outside the configured
`DATA_VALIDATION` ranges. -/
def registroPresionInvalida : WeatherRecord :=
  { baseRecord with pressure_hpa := 2000, visibility_meters := 60000 }

/-- C3, counterexample: the transform does not drop (nor clamp) a record
whose pressure is outside `[900, 1100]` and whose visibility is outside
`[0, 50000]` — the record appears unchanged in the transformed output. -/
theorem transformar_keeps_out_of_range_pressure_cex :
    transformar [registroPresionInvalida] [] [] =
      some [registroPresionInvalida] ∧
    DATA_VALIDATION_pressure_max < registroPresionInvalida.pressure_hpa ∧
    DATA_VALIDATION_visibility_max < registroPresionInvalida.visibility_meters := by
  refine ⟨rfl, ?_, ?_⟩ <;> norm_num [registroPresionInvalida, baseRecord,
    DATA_VALIDATION_pressure_max, DATA_VALIDATION_visibility_max]

/-- C3, amended: `transformar` never filters on pressure or visibility.
Any record of the combined batch that passes the checks the code does
perform (non-null critical fields, temperature, humidity, wind speed)
appears, cleaned, in the transformed output, with its pressure and
visibility fields carried through unchanged — however far outside the
configured `[900, 1100]` and `[0, 50000]` ranges they lie. -/
theorem transformar_no_pressure_visibility_filter
    (df_csv df_json df_api : List WeatherRecord) (r : WeatherRecord)
    (hmem : r ∈ df_csv ++ df_json ++ df_api)
    (h1 : notNullCriticos r = true) (h2 : temperaturaValida r = true)
    (h3 : humedadValida r = true) (h4 : vientoValido r = true) :
    ∃ out, transformar df_csv df_json df_api = some out ∧
      limpiarRegistro r ∈ out ∧
      (limpiarRegistro r).pressure_hpa = r.pressure_hpa ∧
      (limpiarRegistro r).visibility_meters = r.visibility_meters := by
  have hne : ¬(df_csv.isEmpty && df_json.isEmpty && df_api.isEmpty) = true := by
    intro hemp
    simp only [Bool.and_eq_true, List.isEmpty_iff] at hemp
    rw [hemp.1.1, hemp.1.2, hemp.2] at hmem
    cases hmem
  refine ⟨_, by rw [transformar, if_neg hne], ?_, rfl, rfl⟩
  have hm0 : r ∈ ((((df_csv ++ df_json ++ df_api).filter
      notNullCriticos).filter temperaturaValida).filter humedadValida).filter
      vientoValido := by
    rw [List.mem_filter]
    refine ⟨?_, h4⟩
    rw [List.mem_filter]
    refine ⟨?_, h3⟩
    rw [List.mem_filter]
    refine ⟨?_, h2⟩
    rw [List.mem_filter]
    exact ⟨hmem, h1⟩
  exact List.mem_map.mpr ⟨estandarizarNombres (rellenarOpcionales r),
    List.mem_map.mpr ⟨rellenarOpcionales r,
      List.mem_map.mpr ⟨r, hm0, rfl⟩, rfl⟩, rfl⟩

/-- Witness for the amended C3 at the concrete out-of-range record. -/
theorem transformar_no_pressure_visibility_filter_witness :
    ∃ out, transformar [registroPresionInvalida] [] [] = some out ∧
      limpiarRegistro registroPresionInvalida ∈ out ∧
      (limpiarRegistro registroPresionInvalida).pressure_hpa =
        registroPresionInvalida.pressure_hpa ∧
      (limpiarRegistro registroPresionInvalida).visibility_meters =
        registroPresionInvalida.visibility_meters :=
  transformar_no_pressure_visibility_filter [registroPresionInvalida] [] []
    registroPresionInvalida (by simp) rfl rfl rfl rfl

/-- C10: with all three extractions empty, `transformar` returns `None`
without raising, and `cargar` on a `None` or empty combined batch returns
with the store untouched and without opening a database connection (the
final Boolean of `cargar` records whether `psycopg2.connect` ran). -/
theorem empty_pipeline_noop :
    transformar [] [] [] = none ∧
    (∀ st : Store,
      cargar none st = (st, counters0, false)) ∧
    (∀ st : Store,
      cargar (some []) st = (st, counters0, false)) :=
  ⟨rfl, fun _ => rfl, fun _ => rfl⟩

/-- C9: every record mapped from a JSON document and every record mapped
from a successful API response carries `country_name = "México"` and
`state_province = ""`, whatever the source data contained. -/
theorem json_api_constant_country_state :
    (∀ (item : JsonItem) (r : WeatherRecord), mapJsonItem item = some r →
      r.country_name = "México" ∧ r.state_province = "") ∧
    (∀ data : ApiResponse,
      (mapApiResponse data).country_name = "México" ∧
      (mapApiResponse data).state_province = "") := by
  constructor
  · intro item r h
    unfold mapJsonItem at h
    by_cases hg : (item.location_city.isSome && item.location_country.isSome &&
       item.location_lat.isSome && item.location_lon.isSome &&
       item.location_altitude.isSome && item.location_timezone.isSome &&
       item.location_population.isSome && item.timestamp.isSome &&
       item.temp_current.isSome && item.temp_feels_like.isSome &&
       item.temp_min.isSome && item.temp_max.isSome &&
       item.atmospheric_humidity.isSome && item.atmospheric_pressure.isSome &&
       item.atmospheric_sea_level.isSome && item.atmospheric_visibility.isSome &&
       item.wind_speed.isSome && item.wind_gust.isSome &&
       item.wind_direction.isSome && item.clouds.isSome &&
       item.precipitation_rain.isSome && item.precipitation_snow.isSome &&
       item.uv_index.isSome && item.conditions_main.isSome &&
       item.conditions_description.isSome && item.conditions_icon.isSome &&
       item.astronomy_sunrise.isSome && item.astronomy_sunset.isSome &&
       item.astronomy_moon_phase.isSome && item.air_quality.isSome &&
       item.alert.isSome) = true
    · rw [if_pos hg] at h
      cases h
      exact ⟨rfl, rfl⟩
    · rw [if_neg hg] at h
      cases h
  · intro data
    exact ⟨rfl, rfl⟩

/-- Witness for C9 at a concrete JSON document. -/
theorem json_api_constant_country_state_witness :
    ({ baseRecord with source_type := SourceType.JSON } :
      WeatherRecord).country_name = "México" ∧
    ({ baseRecord with source_type := SourceType.JSON } :
      WeatherRecord).state_province = "" :=
  json_api_constant_country_state.1 (docOfObs baseRecord)
    { baseRecord with source_type := SourceType.JSON } rfl

/-! ## Claims about the JSON extraction (C4) and the CSV/JSON round trip (C7). -/

/-- A JSON document carrying the `baseRecord` observation at the fixed
nested paths; every required path present. -/
def itemValido : JsonItem := docOfObs baseRecord

/-- The same document with the required path `location.city` absent. -/
def itemSinCiudad : JsonItem := { docOfObs baseRecord with location_city := none }

theorem mapJsonLoop_cons (d : JsonItem) (ds : List JsonItem) :
    mapJsonLoop (d :: ds) =
      match mapJsonItem d with
      | none => none
      | some r =>
        match mapJsonLoop ds with
        | none => none
        | some rs => some (r :: rs) := rfl

/-- Helper for C4: if any document of the JSON file fails to map, the whole
mapping loop raises, i.e. yields `none`. -/
theorem mapJsonLoop_eq_none_of_mem (docs : List JsonItem) (d : JsonItem)
    (hd : d ∈ docs) (hnone : mapJsonItem d = none) :
    mapJsonLoop docs = none := by
  induction hd with
  | head as => rw [mapJsonLoop_cons, hnone]
  | tail b hb ih =>
    rw [mapJsonLoop_cons, ih]
    cases mapJsonItem b <;> rfl

/-- C4, counterexample: one document with a missing required path does not
merely lose that record — it empties the whole JSON source, although the
other document maps successfully on its own. -/
theorem extraerJson_bad_doc_empties_source_cex :
    extraerJson [itemValido, itemSinCiudad] = [] ∧
    (mapJsonItem itemValido).isSome = true :=
  ⟨rfl, rfl⟩

/-- C4, amended: a required nested path absent in any document of the JSON
file aborts the whole JSON extraction: `extraerJson` returns the empty
record set, discarding also the documents that mapped successfully
(the `try` of lines 75-124 wraps the whole loop, and the `except` replaces
`df_json` by an empty DataFrame). -/
theorem extraerJson_empty_of_any_mapping_failure (docs : List JsonItem)
    (d : JsonItem) (hd : d ∈ docs) (hnone : mapJsonItem d = none) :
    extraerJson docs = [] := by
  unfold extraerJson
  rw [mapJsonLoop_eq_none_of_mem docs d hd hnone]

/-- Witness for the amended C4 at the concrete two-document file. -/
theorem extraerJson_empty_of_any_mapping_failure_witness :
    extraerJson [itemValido, itemSinCiudad] = [] :=
  extraerJson_empty_of_any_mapping_failure [itemValido, itemSinCiudad]
    itemSinCiudad (by simp) rfl

/-- A CSV-representable observation whose country name is not the constant
the JSON mapper hardcodes. -/
def observacionFrancia : WeatherRecord :=
  { baseRecord with country_name := "Francia" }

/-- C7, counterexample: a CSV row and a JSON document describing the same
observation (the JSON document carries the observation at the fixed nested
paths) map to records that differ in `country_name` — not only in
`source_type` — because the JSON mapper hardcodes `country_name` to
`México` while the CSV row passes its own value through. -/
theorem csv_json_roundtrip_cex :
    mapJsonItem (docOfObs observacionFrancia) =
      some { observacionFrancia with
              country_name := "México", source_type := SourceType.JSON } ∧
    ¬ sameExceptSource (csvRecord observacionFrancia)
      { observacionFrancia with
         country_name := "México", source_type := SourceType.JSON } := by
  refine ⟨rfl, ?_⟩
  intro h
  have hc := congrArg WeatherRecord.country_name h
  exact absurd hc (by decide)

/-- C7, amended: the round trip is exact on everything the JSON paths can
carry.  For an observation whose `country_name` is `México`, whose
`state_province` is empty and whose ground-level pressure equals its
surface pressure (the three derived fields the JSON mapper fixes), the CSV
row and the JSON document describing it map to identical records except
for `source_type`. -/
theorem csv_json_roundtrip_of_fixed_fields (r : WeatherRecord)
    (c : String) (t h w p sn u aq : ℚ) (al : Bool)
    (hc : r.city_name = some c) (ht : r.temperature_celsius = some t)
    (hh : r.humidity_percent = some h) (hw : r.wind_speed_mps = some w)
    (hp : r.precipitation_mm = some p) (hs : r.snow_mm = some sn)
    (hu : r.uv_index = some u) (ha : r.air_quality_index = some aq)
    (hal : r.weather_alert = some al)
    (h1 : r.country_name = "México") (h2 : r.state_province = "")
    (h3 : r.ground_level_pressure_hpa = r.pressure_hpa) :
    mapJsonItem (docOfObs r) =
      some { r with source_type := SourceType.JSON } ∧
    sameExceptSource (csvRecord r)
      { r with source_type := SourceType.JSON } := by
  constructor
  · unfold mapJsonItem
    rw [if_pos (by simp [docOfObs, hc, ht, hh, hw, hp, hs, hu, ha, hal])]
    refine congrArg some ?_
    ext <;>
      simp [docOfObs, hc, ht, hh, hw, hp, hs, hu, ha, hal, h1, h2, h3]
  · show _ = _
    ext <;> simp [csvRecord]

/-- Witness for the amended C7 at the concrete observation. -/
theorem csv_json_roundtrip_of_fixed_fields_witness :
    mapJsonItem (docOfObs baseRecord) =
      some { baseRecord with source_type := SourceType.JSON } ∧
    sameExceptSource (csvRecord baseRecord)
      { baseRecord with source_type := SourceType.JSON } :=
  csv_json_roundtrip_of_fixed_fields baseRecord "Merida" 25 50 3 0 0 5 1 false
    rfl rfl rfl rfl rfl rfl rfl rfl rfl rfl rfl rfl

/-! ## Helper lemmas for the loader (towards C1, C2, C6). -/

theorem cargarList_nil (st : Store) (c : Counters) :
    cargarList st c [] = (st, c) := rfl

theorem cargarList_cons (st : Store) (c : Counters)
    (x : WeatherRecord × Option FailPoint)
    (rest : List (WeatherRecord × Option FailPoint)) :
    cargarList st c (x :: rest) =
      cargarList (stepRecord st c x).1 (stepRecord st c x).2 rest := rfl

/-- One processed record adds exactly one to the sum of the three counters,
provided its commit does not raise. -/
theorem stepRecord_sum (st : Store) (c : Counters)
    (x : WeatherRecord × Option FailPoint)
    (hx : x.2 ≠ some FailPoint.commit) :
    (stepRecord st c x).2.registros_insertados +
    (stepRecord st c x).2.registros_duplicados +
    (stepRecord st c x).2.errores =
    c.registros_insertados + c.registros_duplicados + c.errores + 1 := by
  unfold stepRecord
  by_cases h1 : x.2 = some FailPoint.insert_ubicacion
  · rw [if_pos h1]; simp only [incErr]; omega
  · rw [if_neg h1]
    by_cases h2 : ((insertUbicacion st x.1).2.2 : Prop) ∧
        x.2 = some FailPoint.select_ubicacion
    · rw [if_pos h2]; simp only [incErr]; omega
    · rw [if_neg h2]
      unfold stepTrasUbicacion
      by_cases h3 : x.2 = some FailPoint.insert_medicion
      · rw [if_pos h3]; simp only [incErr]; omega
      · rw [if_neg h3]
        cases hM : findMedicion (insertUbicacion st x.1).2.1
            ((insertUbicacion st x.1).1, x.1.measurement_datetime,
              x.1.source_type) with
        | some m =>
          simp only [if_neg hx, incDup]
          omega
        | none =>
          by_cases h4 : x.2 = some FailPoint.insert_condicion
          · simp only [if_pos h4, incErr]; omega
          · simp only [if_neg h4, if_neg hx, incIns]; omega

/-- Generalized counter accounting along the loading loop, for batches in
which no commit raises. -/
theorem cargarList_sum (l : List (WeatherRecord × Option FailPoint)) :
    ∀ (st : Store) (c : Counters),
    (∀ x ∈ l, x.2 ≠ some FailPoint.commit) →
    (cargarList st c l).2.registros_insertados +
    (cargarList st c l).2.registros_duplicados +
    (cargarList st c l).2.errores =
    c.registros_insertados + c.registros_duplicados + c.errores + l.length := by
  induction l with
  | nil => intro st c _; rw [cargarList_nil]; simp
  | cons x xs ih =>
    intro st c hl
    rw [cargarList_cons]
    rw [ih _ _ (fun y hy => hl y (List.mem_cons_of_mem x hy))]
    rw [stepRecord_sum st c x (hl x (List.mem_cons_self x xs))]
    simp [List.length_cons]
    omega

/-- C1, amended: after `cargar` processes a batch in which no record's
commit statement raises, `inserted + duplicated + errored` equals the batch
size — every record lands in exactly one bucket.  (When a commit raises
after a counter was already incremented, the record is counted twice; see
the counterexample.) -/
theorem cargar_sum_counters_sin_commit_failures
    (batch : List (WeatherRecord × Option FailPoint))
    (hnc : ∀ x ∈ batch, x.2 ≠ some FailPoint.commit) (st : Store) :
    (cargarList st counters0 batch).2.registros_insertados +
    (cargarList st counters0 batch).2.registros_duplicados +
    (cargarList st counters0 batch).2.errores = batch.length := by
  rw [cargarList_sum batch st counters0 hnc]
  simp [counters0]

/-- Witness for the amended C1 on a one-record batch with no failures. -/
theorem cargar_sum_counters_sin_commit_failures_witness :
    (cargarList emptyStore counters0 [(baseRecord, none)]).2.registros_insertados +
    (cargarList emptyStore counters0 [(baseRecord, none)]).2.registros_duplicados +
    (cargarList emptyStore counters0 [(baseRecord, none)]).2.errores = 1 :=
  cargar_sum_counters_sin_commit_failures [(baseRecord, none)]
    (by intro x hx; simp at hx; rw [hx]; simp) emptyStore

/-- C1, counterexample: a fresh record whose commit raises AFTER
`registros_insertados += 1` (line 526 precedes `conn.commit()` at
line 532) is rolled back, yet it is counted BOTH as inserted and as an
error: the three counters sum to 2 on a batch of size 1, and the store is
left unchanged although `registros_insertados = 1`. -/
theorem cargar_commit_failure_double_counts_cex :
    (cargarList emptyStore counters0
        [(baseRecord, some FailPoint.commit)]).2 =
      { registros_insertados := 1, registros_duplicados := 0, errores := 1 } ∧
    (cargarList emptyStore counters0
        [(baseRecord, some FailPoint.commit)]).1 = emptyStore ∧
    [(baseRecord, some FailPoint.commit)].length = 1 :=
  ⟨rfl, rfl, rfl⟩

/-- Growth of the store along the run: rows are only appended to the
`ubicaciones` and `mediciones_climaticas` tables (never removed or
reordered). -/
def storeLe (st st' : Store) : Prop :=
  (∃ a, st'.ubicaciones = st.ubicaciones ++ a) ∧
  (∃ b, st'.mediciones_climaticas = st.mediciones_climaticas ++ b)

theorem storeLe_refl (st : Store) : storeLe st st :=
  ⟨⟨[], (List.append_nil _).symm⟩, ⟨[], (List.append_nil _).symm⟩⟩

theorem storeLe_trans {s1 s2 s3 : Store} (h12 : storeLe s1 s2)
    (h23 : storeLe s2 s3) : storeLe s1 s3 := by
  obtain ⟨⟨a, ha⟩, ⟨b, hb⟩⟩ := h12
  obtain ⟨⟨a', ha'⟩, ⟨b', hb'⟩⟩ := h23
  exact ⟨⟨a ++ a', by rw [ha', ha, List.append_assoc]⟩,
         ⟨b ++ b', by rw [hb', hb, List.append_assoc]⟩⟩

/-- A `find?` that succeeds keeps succeeding with the same row after rows
are appended. -/
theorem find?_append_of_some {α : Type} (p : α → Bool) (l₁ l₂ : List α)
    (x : α) (h : l₁.find? p = some x) : (l₁ ++ l₂).find? p = some x := by
  rw [List.find?_append, h]; rfl

theorem findUbicacion_mono (st st' : Store) (hle : storeLe st st')
    (k : Option String × String × ℚ × ℚ) (u : Nat)
    (h : findUbicacion st k = some u) : findUbicacion st' k = some u := by
  obtain ⟨⟨a, ha⟩, -⟩ := hle
  unfold findUbicacion at h ⊢
  obtain ⟨row, hrow, hid⟩ := Option.map_eq_some'.mp h
  rw [ha, find?_append_of_some _ _ _ _ hrow]
  simp [hid]

theorem findMedicion_mono (st st' : Store) (hle : storeLe st st')
    (k : Nat × String × SourceType) (m : Nat)
    (h : findMedicion st k = some m) : findMedicion st' k = some m := by
  obtain ⟨-, ⟨b, hb⟩⟩ := hle
  unfold findMedicion at h ⊢
  obtain ⟨row, hrow, hid⟩ := Option.map_eq_some'.mp h
  rw [hb, find?_append_of_some _ _ _ _ hrow]
  simp [hid]

/-- The record is present in the store: its location row exists and the
measurement row under that location id, the record's timestamp and its
source type exists. -/
def stored (st : Store) (r : WeatherRecord) : Prop :=
  ∃ u, findUbicacion st (locKeyOf r) = some u ∧
    (findMedicion st (u, r.measurement_datetime, r.source_type)).isSome = true

theorem stored_mono (st st' : Store) (hle : storeLe st st')
    (r : WeatherRecord) (h : stored st r) : stored st' r := by
  obtain ⟨u, hU, hM⟩ := h
  obtain ⟨m, hm⟩ := Option.isSome_iff_exists.mp hM
  exact ⟨u, findUbicacion_mono st st' hle _ _ hU,
    by rw [findMedicion_mono st st' hle _ _ hm]; rfl⟩

theorem insertUbicacion_le (st : Store) (r : WeatherRecord) :
    storeLe st (insertUbicacion st r).2.1 := by
  unfold insertUbicacion
  cases h : findUbicacion st (locKeyOf r) with
  | some u => exact storeLe_refl st
  | none =>
    exact ⟨⟨[ubicacionRowOf st.next_id_ubicacion r], rfl⟩,
           ⟨[], (List.append_nil _).symm⟩⟩

theorem insertMedicion_le (st : Store) (idU : Nat) (r : WeatherRecord) :
    storeLe st (insertMedicion st idU r) :=
  ⟨⟨[], (List.append_nil _).symm⟩,
   ⟨[medicionRowOf st.next_id_medicion idU r], rfl⟩⟩

theorem insertCondicion_le (st : Store) (idM : Nat) (r : WeatherRecord) :
    storeLe st (insertCondicion st idM r) := by
  unfold insertCondicion
  split
  · exact storeLe_refl st
  · exact ⟨⟨[], (List.append_nil _).symm⟩, ⟨[], (List.append_nil _).symm⟩⟩

theorem stepRecord_le (st : Store) (c : Counters)
    (x : WeatherRecord × Option FailPoint) :
    storeLe st (stepRecord st c x).1 := by
  unfold stepRecord
  by_cases h1 : x.2 = some FailPoint.insert_ubicacion
  · rw [if_pos h1]; exact storeLe_refl st
  · rw [if_neg h1]
    by_cases h2 : ((insertUbicacion st x.1).2.2 : Prop) ∧
        x.2 = some FailPoint.select_ubicacion
    · rw [if_pos h2]; exact storeLe_refl st
    · rw [if_neg h2]
      unfold stepTrasUbicacion
      by_cases h3 : x.2 = some FailPoint.insert_medicion
      · rw [if_pos h3]; exact storeLe_refl st
      · rw [if_neg h3]
        cases hM : findMedicion (insertUbicacion st x.1).2.1
            ((insertUbicacion st x.1).1, x.1.measurement_datetime,
              x.1.source_type) with
        | some m =>
          by_cases h5 : x.2 = some FailPoint.commit
          · simp only [if_pos h5]; exact storeLe_refl st
          · simp only [if_neg h5]; exact insertUbicacion_le st x.1
        | none =>
          by_cases h4 : x.2 = some FailPoint.insert_condicion
          · simp only [if_pos h4]; exact storeLe_refl st
          · by_cases h5 : x.2 = some FailPoint.commit
            · simp only [if_neg h4, if_pos h5]; exact storeLe_refl st
            · simp only [if_neg h4, if_neg h5]
              exact storeLe_trans (insertUbicacion_le st x.1)
                (storeLe_trans (insertMedicion_le _ _ _)
                  (insertCondicion_le _ _ _))

theorem cargarList_le (l : List (WeatherRecord × Option FailPoint)) :
    ∀ (st : Store) (c : Counters), storeLe st (cargarList st c l).1 := by
  induction l with
  | nil => intro st c; exact storeLe_refl st
  | cons x xs ih =>
    intro st c
    rw [cargarList_cons]
    exact storeLe_trans (stepRecord_le st c x) (ih _ _)

/-- After the location upsert, the location natural key of the record
resolves to the id the upsert produced (either the found id or the id of
the freshly inserted row). -/
theorem insertUbicacion_spec (st : Store) (r : WeatherRecord) :
    findUbicacion (insertUbicacion st r).2.1 (locKeyOf r) =
      some (insertUbicacion st r).1 := by
  unfold insertUbicacion
  cases h : findUbicacion st (locKeyOf r) with
  | some u => exact h
  | none =>
    unfold findUbicacion at h ⊢
    rw [show ({ st with
        ubicaciones := st.ubicaciones ++ [ubicacionRowOf st.next_id_ubicacion r],
        next_id_ubicacion := st.next_id_ubicacion + 1 } : Store).ubicaciones =
      st.ubicaciones ++ [ubicacionRowOf st.next_id_ubicacion r] from rfl]
    rw [List.find?_append, Option.map_eq_none'.mp h]
    simp [ubicacionKey, ubicacionRowOf, locKeyOf]

theorem findUbicacion_insertMedicion (st : Store) (idU : Nat)
    (r : WeatherRecord) (k : Option String × String × ℚ × ℚ) :
    findUbicacion (insertMedicion st idU r) k = findUbicacion st k := rfl

theorem findUbicacion_insertCondicion (st : Store) (idM : Nat)
    (r : WeatherRecord) (k : Option String × String × ℚ × ℚ) :
    findUbicacion (insertCondicion st idM r) k = findUbicacion st k := by
  unfold insertCondicion
  split <;> rfl

theorem findMedicion_insertCondicion (st : Store) (idM : Nat)
    (r : WeatherRecord) (k : Nat × String × SourceType) :
    findMedicion (insertCondicion st idM r) k = findMedicion st k := by
  unfold insertCondicion
  split <;> rfl

/-- Inserting the measurement row for a key that was absent makes that key
present, resolved to the fresh serial id. -/
theorem findMedicion_insertMedicion_self (st : Store) (idU : Nat)
    (r : WeatherRecord)
    (h : findMedicion st (idU, r.measurement_datetime, r.source_type) = none) :
    findMedicion (insertMedicion st idU r)
      (idU, r.measurement_datetime, r.source_type) =
      some st.next_id_medicion := by
  unfold findMedicion at h ⊢
  unfold insertMedicion
  rw [show ({ st with
      mediciones_climaticas :=
        st.mediciones_climaticas ++ [medicionRowOf st.next_id_medicion idU r],
      next_id_medicion := st.next_id_medicion + 1 } : Store).mediciones_climaticas =
    st.mediciones_climaticas ++ [medicionRowOf st.next_id_medicion idU r] from rfl]
  rw [List.find?_append, Option.map_eq_none'.mp h]
  simp [medicionKey, medicionRowOf]

/-- Processing a record without database failures leaves it stored. -/
theorem stepRecord_stored (st : Store) (c : Counters) (r : WeatherRecord) :
    stored (stepRecord st c (r, none)).1 r := by
  unfold stepRecord
  rw [if_neg (by simp), if_neg (by simp)]
  unfold stepTrasUbicacion
  rw [if_neg (by simp)]
  cases hM : findMedicion (insertUbicacion st (r, none).1).2.1
      ((insertUbicacion st (r, none).1).1, (r, none).1.measurement_datetime,
        (r, none).1.source_type) with
  | some m =>
    simp only [if_neg (show ¬((r, none).2 = some FailPoint.commit) by simp)]
    exact ⟨(insertUbicacion st r).1, insertUbicacion_spec st r,
      by rw [hM]; rfl⟩
  | none =>
    simp only [if_neg (show ¬((r, none).2 = some FailPoint.insert_condicion) by simp),
      if_neg (show ¬((r, none).2 = some FailPoint.commit) by simp)]
    refine ⟨(insertUbicacion st r).1, ?_, ?_⟩
    · rw [findUbicacion_insertCondicion, findUbicacion_insertMedicion]
      exact insertUbicacion_spec st r
    · rw [findMedicion_insertCondicion,
        findMedicion_insertMedicion_self _ _ _ hM]
      rfl

/-- Processing an already stored record without database failures is a
pure duplicate: store untouched, `registros_duplicados` incremented. -/
theorem stepRecord_of_stored (st : Store) (c : Counters) (r : WeatherRecord)
    (hst : stored st r) : stepRecord st c (r, none) = (st, incDup c) := by
  obtain ⟨u, hU, hM⟩ := hst
  obtain ⟨m, hm⟩ := Option.isSome_iff_exists.mp hM
  have hins : insertUbicacion st r = (u, st, true) := by
    unfold insertUbicacion
    rw [hU]
  unfold stepRecord
  rw [if_neg (by simp), if_neg (by simp)]
  rw [show (r, (none : Option FailPoint)).1 = r from rfl]
  rw [hins]
  show stepTrasUbicacion st st u c r none = (st, incDup c)
  unfold stepTrasUbicacion
  rw [if_neg (by simp), hm]
  simp

/-- After a failure-free run, every record of the batch is stored. -/
theorem cargarList_sinFallos_stored (batch : List WeatherRecord) :
    ∀ (st : Store) (c : Counters) (r : WeatherRecord), r ∈ batch →
    stored (cargarList st c (sinFallos batch)).1 r := by
  induction batch with
  | nil => intro st c r hr; cases hr
  | cons a as ih =>
    intro st c r hr
    rw [show sinFallos (a :: as) = (a, none) :: sinFallos as from rfl,
      cargarList_cons]
    rcases List.mem_cons.mp hr with h | h
    · subst h
      exact stored_mono _ _ (cargarList_le _ _ _) r (stepRecord_stored st c r)
    · exact ih _ _ r h

/-- A failure-free run over a batch that is entirely stored inserts
nothing: the store is unchanged and every record counts as a duplicate. -/
theorem cargarList_all_dup (l : List WeatherRecord) :
    ∀ (st : Store) (c : Counters), (∀ r ∈ l, stored st r) →
    cargarList st c (sinFallos l) =
      (st, { c with registros_duplicados :=
              c.registros_duplicados + l.length }) := by
  induction l with
  | nil =>
    intro st c _
    rw [show sinFallos [] = [] from rfl, cargarList_nil]
    simp
  | cons a as ih =>
    intro st c h
    rw [show sinFallos (a :: as) = (a, none) :: sinFallos as from rfl,
      cargarList_cons,
      stepRecord_of_stored st c a (h a (List.mem_cons_self a as))]
    show cargarList st (incDup c) (sinFallos as) = _
    rw [ih st (incDup c) (fun r hr => h r (List.mem_cons_of_mem a hr))]
    refine congrArg _ ?_
    ext <;> simp [incDup, List.length_cons] <;> omega

/-- C2: the loader is idempotent at the batch level.  Running the
failure-free loading loop a second time over the same batch against the
store the first run produced leaves the store (hence the row counts of all
three tables) exactly as the first run left it, and the second run
classifies every record as a duplicate: `registros_insertados = 0`,
`registros_duplicados = batch size`, `errores = 0`. -/
theorem cargar_idempotente (st : Store) (batch : List WeatherRecord) :
    cargarList (cargarList st counters0 (sinFallos batch)).1 counters0
        (sinFallos batch) =
      ((cargarList st counters0 (sinFallos batch)).1,
       { registros_insertados := 0, registros_duplicados := batch.length,
         errores := 0 }) := by
  rw [cargarList_all_dup batch _ counters0
    (cargarList_sinFallos_stored batch st counters0)]
  refine congrArg _ ?_
  ext <;> simp [counters0]

/-- C6: when one of the three insert statements of a record raises, that
record's work is rolled back (the store continues exactly as it was when
the record started), `errores` is incremented by one, and the loop carries
on with the remaining records of the batch. -/
theorem cargar_insert_failure_isolated (st : Store) (c : Counters)
    (r : WeatherRecord) (f : FailPoint)
    (hf : f = FailPoint.insert_ubicacion ∨ f = FailPoint.insert_medicion ∨
          f = FailPoint.insert_condicion)
    (hreach : reachesB st r f = true)
    (rest : List (WeatherRecord × Option FailPoint)) :
    stepRecord st c (r, some f) = (st, incErr c) ∧
    cargarList st c ((r, some f) :: rest) = cargarList st (incErr c) rest := by
  have hstep : stepRecord st c (r, some f) = (st, incErr c) := by
    rcases hf with h | h | h <;> subst h
    · unfold stepRecord
      rw [if_pos rfl]
    · unfold stepRecord
      rw [if_neg (by simp), if_neg (by simp)]
      unfold stepTrasUbicacion
      rw [if_pos rfl]
    · unfold reachesB at hreach
      rw [Option.isNone_iff_eq_none] at hreach
      unfold stepRecord
      rw [if_neg (by simp), if_neg (by simp)]
      unfold stepTrasUbicacion
      rw [if_neg (by simp)]
      rw [show (r, some FailPoint.insert_condicion).1 = r from rfl]
      rw [hreach]
      simp
  refine ⟨hstep, ?_⟩
  rw [cargarList_cons, hstep]

/-- Witness for C6: a failing location insert on the empty store. -/
theorem cargar_insert_failure_isolated_witness :
    stepRecord emptyStore counters0
        (baseRecord, some FailPoint.insert_ubicacion) =
      (emptyStore, incErr counters0) ∧
    cargarList emptyStore counters0
        [(baseRecord, some FailPoint.insert_ubicacion)] =
      cargarList emptyStore (incErr counters0) [] :=
  cargar_insert_failure_isolated emptyStore counters0 baseRecord
    FailPoint.insert_ubicacion (Or.inl rfl) rfl []
